import Mathlib

/-!
Shallow embedding of the eco-racs basket scoring and optimization core
(`src/cac`): the substitute engine (`substitutes/substitute_engine.py`),
the basket optimizer (`optimization/basket_optimizer.py`), the metrics
module (`metrics.py`), the emissions engine (`lca/emissions_engine.py`)
and the acceptance model (`behavior/acceptance_model.py`).

Python floats are modelled by `ℚ` (every float is a rational); values that
the source computes with `sqrt` (cosine similarity, RACS, beam scores) are
modelled in `ℝ` via `Real.sqrt`.  Python dicts that carry data
(`product_db`, `category_index`, `embeddings`, `footprint_db`) are
modelled by association lists in insertion order, which is the iteration
order of a Python dict.  A dict-backed record with optional keys is
modelled by a structure whose optional fields are `Option`s, with the
source's per-call-site `.get` defaults applied at each use site.
`float('inf')` is modelled by `⊤ : WithTop ℚ`.
-/

set_option linter.unusedVariables false

noncomputable section

/-- A row of the substitute engine's `product_db` (see
`_create_synthetic_database`): id, name, category, emissions, price,
vegetarian flag, allergen tags, and the health score attached by the
health scorer. -/
structure Product where
  id : String
  name : String
  category : String
  emissions : ℚ
  price : ℚ
  vegetarian : Bool
  allergens : List String
  health : ℚ
deriving DecidableEq

/-- The loaded state of `SubstituteEngine`: `product_db` (id-keyed rows),
`category_index` (category → list of product ids) and `embeddings`
(id → feature vector).  The source loads these from a pickle or builds the
synthetic database; the embedding is parametric in the loaded data. -/
structure SubstituteEngine where
  product_db : List Product
  category_index : List (String × List String)
  embeddings : List (String × List ℚ)

/-- `SubstituteEngine.get_product_info`: `self.product_db.get(product_id)`. -/
def get_product_info (e : SubstituteEngine) (product_id : String) : Option Product :=
  e.product_db.find? (fun p => p.id == product_id)

/-- `SubstituteEngine._create_embedding`: the 5-dimensional feature vector
`[emissions/100, price/20, health, vegetarian ? 1 : 0, #allergens/5]`. -/
def create_embedding (p : Product) : List ℚ :=
  [p.emissions / 100, p.price / 20, p.health,
   if p.vegetarian then 1 else 0, (p.allergens.length : ℚ) / 5]

/-- `np.dot` of two equal-length vectors (the engine's embeddings all have
five components). -/
def dotList (a b : List ℚ) : ℚ :=
  (List.zipWith (fun x y => x * y) a b).sum

/-- The squared euclidean norm, so that `np.linalg.norm v = √(sumSq v)`. -/
def sumSq (a : List ℚ) : ℚ :=
  (a.map (fun x => x * x)).sum

/-- `SubstituteEngine._compute_similarity`: 0.5 when either embedding is
missing, else cosine similarity of the embeddings rescaled by
`(sim + 1) / 2`, with 0.5 again when either norm is zero. -/
def compute_similarity (e : SubstituteEngine) (product_id1 product_id2 : String) : ℝ :=
  match e.embeddings.lookup product_id1, e.embeddings.lookup product_id2 with
  | some emb1, some emb2 =>
    let dot_product : ℚ := dotList emb1 emb2
    let norm1 : ℝ := Real.sqrt (sumSq emb1 : ℝ)
    let norm2 : ℝ := Real.sqrt (sumSq emb2 : ℝ)
    if norm1 = 0 ∨ norm2 = 0 then 0.5
    else ((dot_product : ℝ) / (norm1 * norm2) + 1) / 2
  | _, _ => 0.5

/-- One entry of `find_substitutes`' result (dataclass `ProductSimilarity`);
`attributes` holds the full product row, as in the source. -/
structure ProductSimilarity where
  product_id : String
  name : String
  category : String
  emissions : ℚ
  price : ℚ
  similarity_score : ℝ
  health_score : ℚ
  attributes : Product

/-- The constraints dict.  Absent keys are the structure's defaults:
`vegetarian`/`vegan` default falsy, `allergens` defaults to `[]`,
`max_price` and `max_price_delta` default to absent (`none`). -/
structure Constraints where
  vegetarian : Bool := false
  vegan : Bool := false
  allergens : List String := []
  max_price : Option ℚ := none
  max_price_delta : Option ℚ := none

/-- First-occurrence deduplication, standing in for the source's
`list(set(candidates))` whose order Python leaves unspecified. -/
def dedupFirst : List String → List String
  | [] => []
  | x :: xs => x :: (dedupFirst xs).filter (fun y => y ≠ x)

/-- `SubstituteEngine._get_candidates`: same-category products, plus every
protein-family category's products when the original's category is in the
protein family, plus every milk-family category's products when it is in
the milk family; duplicates removed. -/
def get_candidates (e : SubstituteEngine) (original : Product) : List String :=
  let sameCat := ((e.category_index.lookup original.category).getD [])
  let protein_categories := ["Beef", "Chicken", "Pork", "Fish", "Tofu", "Tempeh", "Legumes"]
  let fromProtein :=
    if original.category ∈ protein_categories then
      protein_categories.flatMap (fun c => (e.category_index.lookup c).getD [])
    else []
  let milk_categories := ["Milk", "Plant Milk"]
  let fromMilk :=
    if original.category ∈ milk_categories then
      milk_categories.flatMap (fun c => (e.category_index.lookup c).getD [])
    else []
  dedupFirst (sameCat ++ fromProtein ++ fromMilk)

/-- `SubstituteEngine._filter_by_constraints`: drop candidates that violate
the vegetarian flag, the vegan rule (non-vegetarian or dairy allergen), the
allergen-exclusion set, or a truthy maximum price. -/
def filter_by_constraints (e : SubstituteEngine) (candidates : List String)
    (constraints : Constraints) : List String :=
  candidates.filter (fun candidate_id =>
    match get_product_info e candidate_id with
    | none => false
    | some c =>
      (!constraints.vegetarian || c.vegetarian)
      && (!constraints.vegan || (c.vegetarian && !(c.allergens.contains "dairy")))
      && (!(constraints.allergens.any (fun a => c.allergens.contains a)))
      && (match constraints.max_price with
          | none => true
          | some mp => if mp = 0 then true else decide (c.price ≤ mp)))

/-- `list.sort(key=...)` comparator of `find_substitutes`: ascending
lexicographic order on the key
`(-x.emissions + original.emissions, -x.similarity_score)`. -/
def rankLE (original : Product) (a b : ProductSimilarity) : Bool :=
  if (-a.emissions + original.emissions) < (-b.emissions + original.emissions) then true
  else if (-b.emissions + original.emissions) < (-a.emissions + original.emissions) then false
  else decide ((-a.similarity_score) ≤ (-b.similarity_score))

/-- Stable insertion into a sorted list: used to model Python's stable
ascending `list.sort`. -/
def insertIn (le : α → α → Bool) (x : α) : List α → List α
  | [] => [x]
  | y :: ys => if le x y then x :: y :: ys else y :: insertIn le x ys

/-- Stable ascending sort by a boolean comparator (Python's `list.sort` is
a stable ascending sort; any two stable sorts agree extensionally). -/
def sortListBy (le : α → α → Bool) : List α → List α
  | [] => []
  | x :: xs => insertIn le x (sortListBy le xs)

/-- `SubstituteEngine.find_substitutes`: empty for an unknown product id,
else candidates from `_get_candidates`, filtered by `_filter_by_constraints`,
scored (skipping the original), sorted by the key
`(-emissions + original.emissions, -similarity)` ascending, truncated to
`max_results`. -/
def find_substitutes (e : SubstituteEngine) (product_id : String)
    (constraints : Constraints) (max_results : ℕ) : List ProductSimilarity :=
  match get_product_info e product_id with
  | none => []
  | some original =>
    let candidates := get_candidates e original
    let candidates := filter_by_constraints e candidates constraints
    let candidates_with_scores := candidates.filterMap (fun candidate_id =>
      if candidate_id = product_id then none
      else (get_product_info e candidate_id).map (fun candidate =>
        { product_id := candidate_id
          name := candidate.name
          category := candidate.category
          emissions := candidate.emissions
          price := candidate.price
          similarity_score := compute_similarity e product_id candidate_id
          health_score := candidate.health
          attributes := candidate }))
    (sortListBy (rankLE original) candidates_with_scores).take max_results

/-- Dataclass `SwapCandidate` of the basket optimizer. -/
structure SwapCandidate where
  original_product_id : String
  substitute_product_id : String
  emissions_reduction : ℚ
  cost_change : ℚ
  similarity_score : ℝ
  category : String

/-- The optimizer's config dict with the defaults read in `__init__` and
`_compute_objective`. -/
structure OptimizerConfig where
  beam_width : ℕ := 10
  max_price_delta : ℚ := 3 / 100
  weight_emissions : ℚ := 1
  weight_cost : ℚ := 1 / 10
  weight_dissimilarity : ℚ := 1 / 2
  weight_health : ℚ := 3 / 10

/-- `BasketOptimizer` with its lazily created `_substitute_engine`.  The
source creates the engine on the first `get_substitutes` call; scores are
unaffected by carrying it from the start, because the only score computed
before that point is the initial state's, whose dissimilarity term is 0
either way (a basket has dissimilarity 0 to itself). -/
structure BasketOptimizer where
  config : OptimizerConfig
  engine : SubstituteEngine

/-- A basket line: the keyed dict `{product_id, name, quantity, price,
emissions?, category, health_score?, vegetarian?, allergens}`.  `price` and
`quantity` are required (the source indexes them without a default in the
basket totals); the `Option` fields take the source's `.get` defaults at
each use site (`emissions` → 0, `health_score` → 0.5, `vegetarian` → true
inside `_satisfies_constraints`). -/
structure Item where
  product_id : String
  name : String := ""
  quantity : ℚ := 1
  price : ℚ := 0
  emissions : Option ℚ := none
  category : String := ""
  health_score : Option ℚ := none
  vegetarian : Option Bool := none
  allergens : List String := []
deriving DecidableEq

/-- `sum(p.get("emissions", 0) for p in basket)`. -/
def emissionsOf (basket : List Item) : ℚ :=
  (basket.map (fun p => p.emissions.getD 0)).sum

/-- `sum(p["price"] * p["quantity"] for p in basket)` (also the
`_satisfies_constraints` cost, whose `.get` defaults coincide here because
`price` and `quantity` are required fields). -/
def costOf (basket : List Item) : ℚ :=
  (basket.map (fun p => p.price * p.quantity)).sum

/-- `BasketOptimizer.get_substitutes`: `find_substitutes` with
`max_results=10`, converted to `SwapCandidate`s against the original
product; empty when the original product is unknown. -/
def get_substitutes (o : BasketOptimizer) (product_id : String)
    (constraints : Constraints) : List SwapCandidate :=
  let substitutes := find_substitutes o.engine product_id constraints 10
  match get_product_info o.engine product_id with
  | none => []
  | some original =>
    substitutes.map (fun sub =>
      { original_product_id := product_id
        substitute_product_id := sub.product_id
        emissions_reduction := original.emissions - sub.emissions
        cost_change := sub.price - original.price
        similarity_score := sub.similarity_score
        category := sub.category })

/-- `BasketOptimizer._compute_basket_dissimilarity`: 1 for different
lengths, else the basket-size-normalized sum of `1 - similarity` over
positions whose product ids differ. -/
def compute_basket_dissimilarity (o : BasketOptimizer) (basket1 basket2 : List Item) : ℝ :=
  if basket1.length ≠ basket2.length then 1
  else
    let total := ((List.zipWith (fun item1 item2 =>
      if item1.product_id = item2.product_id then (0 : ℝ)
      else 1 - compute_similarity o.engine item1.product_id item2.product_id)
      basket1 basket2)).sum
    if basket1.isEmpty then 0 else total / (basket1.length : ℝ)

/-- `BasketOptimizer._compute_objective`:
`α·emissions + β·cost + γ·dissimilarity + δ·(1 − health)`, where `health`
averages `p.get("health_score", 0.5)` (0.5 for an empty basket) and the
dissimilarity term is 0 for a falsy `original_basket`. -/
def compute_objective (o : BasketOptimizer) (basket original_basket : List Item) : ℝ :=
  let alpha := o.config.weight_emissions
  let beta := o.config.weight_cost
  let gamma := o.config.weight_dissimilarity
  let delta := o.config.weight_health
  let emissions := emissionsOf basket
  let cost := costOf basket
  let health : ℚ :=
    if basket.isEmpty then 1 / 2
    else (basket.map (fun p => p.health_score.getD (1 / 2))).sum / (basket.length : ℚ)
  let dissimilarity : ℝ :=
    if original_basket.isEmpty then 0
    else compute_basket_dissimilarity o basket original_basket
  (alpha : ℝ) * (emissions : ℝ) + (beta : ℝ) * (cost : ℝ)
    + (gamma : ℝ) * dissimilarity + (delta : ℝ) * (1 - (health : ℝ))

/-- `BasketOptimizer._apply_swap`: copy the basket and replace position
`product_idx` with the substitute's full product data, keeping the
position's quantity; the basket is unchanged when the substitute id is
unknown. -/
def apply_swap (o : BasketOptimizer) (basket : List Item) (product_idx : ℕ)
    (swap : SwapCandidate) : List Item :=
  match get_product_info o.engine swap.substitute_product_id with
  | none => basket
  | some sub_product =>
    let original_quantity := ((basket.get? product_idx).map (fun it => it.quantity)).getD 1
    basket.set product_idx
      { product_id := swap.substitute_product_id
        name := sub_product.name
        quantity := original_quantity
        price := sub_product.price
        emissions := some sub_product.emissions
        category := sub_product.category
        health_score := some sub_product.health
        vegetarian := some sub_product.vegetarian
        allergens := sub_product.allergens }

/-- `BasketOptimizer._satisfies_constraints`: the basket-level cost-delta
ratio against the original basket's cost (skipped when that cost is not
positive), the vegetarian/vegan rules (`item.get("vegetarian", True)`),
and the allergen-exclusion set. -/
def satisfies_constraints (o : BasketOptimizer) (new_basket original_basket : List Item)
    (constraints : Constraints) : Bool :=
  let original_cost := costOf original_basket
  let new_cost := costOf new_basket
  (if 0 < original_cost then
    let max_delta := constraints.max_price_delta.getD o.config.max_price_delta
    decide (|new_cost - original_cost| / original_cost ≤ max_delta)
  else true)
  && (!constraints.vegetarian || new_basket.all (fun item => item.vegetarian.getD true))
  && (!constraints.vegan || new_basket.all (fun item =>
        item.vegetarian.getD true && !(item.allergens.contains "dairy")))
  && (new_basket.all (fun item =>
        !(constraints.allergens.any (fun a => item.allergens.contains a))))

/-- A beam entry: `{"basket": ..., "score": ...}`. -/
structure BeamState where
  basket : List Item
  score : ℝ

/-- The `new_beam` collection of one beam-search iteration of
`optimize_basket` for the original basket position `product_idx` holding
`item`: for every beam state, fetch substitutes for `item["product_id"]`,
keep each swapped basket that satisfies the constraints, and carry the
state forward only when the substitute list is empty. -/
def beamCandidates (o : BasketOptimizer) (original_basket : List Item)
    (constraints : Constraints) (beam : List BeamState)
    (product_idx : ℕ) (item : Item) : List BeamState :=
  beam.flatMap (fun candidate_basket_state =>
    let substitutes := get_substitutes o item.product_id constraints
    (substitutes.filterMap (fun sub =>
      let new_basket := apply_swap o candidate_basket_state.basket product_idx sub
      if satisfies_constraints o new_basket original_basket constraints then
        some { basket := new_basket, score := compute_objective o new_basket original_basket }
      else none))
    ++ (if substitutes.isEmpty then [candidate_basket_state] else []))

/-- The tail of one beam-search iteration: when the collected `new_beam`
is nonempty, sort it ascending by score and keep the best `beam_width`
states; otherwise keep the current beam (`else: pass` in the source). -/
def beamStep (o : BasketOptimizer) (original_basket : List Item)
    (constraints : Constraints) (beam : List BeamState)
    (product_idx : ℕ) (item : Item) : List BeamState :=
  let new_beam := beamCandidates o original_basket constraints beam product_idx item
  if new_beam.isEmpty then beam
  else (sortListBy (fun a b => decide (a.score ≤ b.score)) new_beam).take o.config.beam_width

/-- The `for product_idx, item in enumerate(basket)` loop of
`optimize_basket`, carrying the running index. -/
def beamLoop (o : BasketOptimizer) (original_basket : List Item)
    (constraints : Constraints) : ℕ → List Item → List BeamState → List BeamState
  | _, [], beam => beam
  | product_idx, item :: rest, beam =>
      beamLoop o original_basket constraints (product_idx + 1) rest
        (beamStep o original_basket constraints beam product_idx item)

/-- The record returned by `optimize_basket`. -/
structure OptimizeResult where
  optimized_basket : List Item
  emissions : ℚ
  cost : ℚ
  cog : ℚ
  cog_ratio : ℚ
  mac_basket : WithTop ℚ

/-- `BasketOptimizer.optimize_basket`: beam search from the singleton beam
holding the original basket, then the metrics block (COG, COG ratio with a
zero-emissions guard, MAC with `float('inf')` for a non-positive
reduction); the original basket is returned when the final beam is
empty. -/
def optimize_basket (o : BasketOptimizer) (basket : List Item)
    (constraints : Constraints) : OptimizeResult :=
  let beam := beamLoop o basket constraints 0 basket
    [{ basket := basket, score := compute_objective o basket basket }]
  let optimized := match beam with
    | [] => basket
    | best :: _ => best.basket
  let original_emissions := emissionsOf basket
  let optimized_emissions := emissionsOf optimized
  let original_cost := costOf basket
  let optimized_cost := costOf optimized
  let cog := original_emissions - optimized_emissions
  let emissions_reduction := original_emissions - optimized_emissions
  { optimized_basket := optimized
    emissions := optimized_emissions
    cost := optimized_cost
    cog := cog
    cog_ratio := if 0 < original_emissions then cog / original_emissions else 0
    mac_basket :=
      if 0 < emissions_reduction then
        ((optimized_cost - original_cost) / emissions_reduction : ℚ)
      else ⊤ }

/-- The spec's reading of the transition (§4.3): substitute candidates are
fetched once per position, keyed by the item that occupies that position
in the original basket, independently of the beam states.  Used to settle
the "freeze the origin" claim by comparison with `beamStep`. -/
def beamStepHoisted (o : BasketOptimizer) (original_basket : List Item)
    (constraints : Constraints) (beam : List BeamState)
    (product_idx : ℕ) (item : Item) : List BeamState :=
  let substitutes := get_substitutes o item.product_id constraints
  let new_beam := beam.flatMap (fun candidate_basket_state =>
    (substitutes.filterMap (fun sub =>
      let new_basket := apply_swap o candidate_basket_state.basket product_idx sub
      if satisfies_constraints o new_basket original_basket constraints then
        some { basket := new_basket, score := compute_objective o new_basket original_basket }
      else none))
    ++ (if substitutes.isEmpty then [candidate_basket_state] else []))
  if new_beam.isEmpty then beam
  else (sortListBy (fun a b => decide (a.score ≤ b.score)) new_beam).take o.config.beam_width

/-- `beamLoop` with the per-position candidate fetch hoisted out of the
state loop (`beamStepHoisted`). -/
def beamLoopHoisted (o : BasketOptimizer) (original_basket : List Item)
    (constraints : Constraints) : ℕ → List Item → List BeamState → List BeamState
  | _, [], beam => beam
  | product_idx, item :: rest, beam =>
      beamLoopHoisted o original_basket constraints (product_idx + 1) rest
        (beamStepHoisted o original_basket constraints beam product_idx item)

/-- `optimize_basket` over the hoisted transition. -/
def optimize_basket_hoisted (o : BasketOptimizer) (basket : List Item)
    (constraints : Constraints) : OptimizeResult :=
  let beam := beamLoopHoisted o basket constraints 0 basket
    [{ basket := basket, score := compute_objective o basket basket }]
  let optimized := match beam with
    | [] => basket
    | best :: _ => best.basket
  let original_emissions := emissionsOf basket
  let optimized_emissions := emissionsOf optimized
  let original_cost := costOf basket
  let optimized_cost := costOf optimized
  let cog := original_emissions - optimized_emissions
  let emissions_reduction := original_emissions - optimized_emissions
  { optimized_basket := optimized
    emissions := optimized_emissions
    cost := optimized_cost
    cog := cog
    cog_ratio := if 0 < original_emissions then cog / original_emissions else 0
    mac_basket :=
      if 0 < emissions_reduction then
        ((optimized_cost - original_cost) / emissions_reduction : ℚ)
      else ⊤ }

/-- `CarbonMetrics.carbon_opportunity_gap`: `(COG, COG_ratio)` with the
ratio guarded to 0 when the original emissions are not positive. -/
def carbon_opportunity_gap (emissions_original emissions_optimized : ℚ) : ℚ × ℚ :=
  let cog := emissions_original - emissions_optimized
  (cog, if 0 < emissions_original then cog / emissions_original else 0)

/-- A swap record as consumed by
`CarbonMetrics.behavior_adjusted_emissions`: the `acceptance_prob` and
`emissions_reduction` keys. -/
structure BaeSwap where
  acceptance_prob : ℚ
  emissions_reduction : ℚ

/-- `CarbonMetrics.behavior_adjusted_emissions`: `Σ p_s · ΔE_s`. -/
def behavior_adjusted_emissions (swaps : List BaeSwap) : ℚ :=
  (swaps.map (fun swap => swap.acceptance_prob * swap.emissions_reduction)).sum

/-- The z-score table `{0.90: 1.645, 0.95: 1.96, 0.99: 2.576}.get(c, 1.96)`
of `risk_adjusted_carbon_score`. -/
def zAlphaOf (confidence_level : ℚ) : ℚ :=
  if confidence_level = 90 / 100 then 1645 / 1000
  else if confidence_level = 95 / 100 then 196 / 100
  else if confidence_level = 99 / 100 then 2576 / 1000
  else 196 / 100

/-- `CarbonMetrics.risk_adjusted_carbon_score`:
`mean + z_α · √variance`. -/
def risk_adjusted_carbon_score (emissions_mean emissions_variance : ℚ)
    (confidence_level : ℚ) : ℝ :=
  (emissions_mean : ℝ) + (zAlphaOf confidence_level : ℝ) * Real.sqrt (emissions_variance : ℝ)

/-- `CarbonMetrics.marginal_abatement_cost`: `float('inf')` (modelled as
`⊤`) when the emissions reduction is not positive, else
`(cost_optimized − cost_original) / (emissions_original − emissions_optimized)`. -/
def marginal_abatement_cost (cost_original cost_optimized
    emissions_original emissions_optimized : ℚ) : WithTop ℚ :=
  let emissions_reduction := emissions_original - emissions_optimized
  if emissions_reduction ≤ 0 then ⊤
  else ((cost_optimized - cost_original) / emissions_reduction : ℚ)

/-- Dataclass `ProductFootprint` of the emissions engine. -/
structure ProductFootprint where
  product_id : String
  emissions_mean : ℚ
  emissions_variance : ℚ
  category : String
  source : String
deriving DecidableEq

/-- The emissions engine's `footprint_db`, a category-keyed dict in
insertion order. -/
structure EmissionsEngine where
  footprint_db : List (String × ProductFootprint)

/-- `str.lower()` on the ASCII identifiers used as product ids and
category names. -/
def lowerChars (s : String) : List Char :=
  s.toList.map Char.toLower

/-- Whether `pat` is an initial run of `s` (helper for the `in` substring
test). -/
def leadsWith : List Char → List Char → Bool
  | [], _ => true
  | _ :: _, [] => false
  | a :: as, b :: bs => a == b && leadsWith as bs

/-- Python's `pat in s` substring containment on character lists. -/
def occursIn (pat : List Char) : List Char → Bool
  | [] => pat.isEmpty
  | b :: bs => leadsWith pat (b :: bs) || occursIn pat bs

/-- `EmissionsEngine.get_product_footprint`: the exact product-id entry if
present; else the first category (in dict order) whose lowered name is a
substring of the lowered product id; else the fixed default footprint
`(mean 5.0, variance 2.0, "Unknown", "Default")`.  Total: it never
raises. -/
def get_product_footprint (e : EmissionsEngine) (product_id : String) : ProductFootprint :=
  match e.footprint_db.lookup product_id with
  | some footprint => footprint
  | none =>
    match e.footprint_db.find? (fun kv => occursIn (lowerChars kv.1) (lowerChars product_id)) with
    | some kv => kv.2
    | none =>
      { product_id := product_id
        emissions_mean := 5
        emissions_variance := 2
        category := "Unknown"
        source := "Default" }

/-- The dict returned by `calculate_basket_emissions`. -/
structure EmissionsResult where
  emissions : ℚ
  variance : ℚ
  racs : ℝ
  product_emissions : List (String × ℚ × ℚ)

/-- One step of the accumulation loop of `calculate_basket_emissions`:
`emissions += mean · quantity`, `variance += variance · quantity²`, and
the per-product record appended in order.  The source's `if footprint:`
test never fails: `get_product_footprint` is total and a dataclass
instance is always truthy. -/
def emissionsStep (e : EmissionsEngine) (acc : ℚ × ℚ × List (String × ℚ × ℚ))
    (item : Item) : ℚ × ℚ × List (String × ℚ × ℚ) :=
  let footprint := get_product_footprint e item.product_id
  let emissions := footprint.emissions_mean * item.quantity
  let variance := footprint.emissions_variance * item.quantity ^ 2
  (acc.1 + emissions, acc.2.1 + variance, acc.2.2 ++ [(item.product_id, emissions, variance)])

/-- `EmissionsEngine.calculate_basket_emissions`: the accumulation loop
over the basket (`emissionsStep`), then
`RACS = emissions + 1.96 · √variance`. -/
def calculate_basket_emissions (e : EmissionsEngine) (basket : List Item) : EmissionsResult :=
  let totals := basket.foldl (emissionsStep e) (0, 0, [])
  { emissions := totals.1
    variance := totals.2.1
    racs := (totals.1 : ℝ) + (196 / 100 : ℝ) * Real.sqrt (totals.2.1 : ℝ)
    product_emissions := totals.2.2 }

/-- A swap as consumed by the acceptance model (`price_change`,
`emissions_reduction`, `similarity_score`, `brand_change`, with the
source's `.get` defaults). -/
structure AccSwap where
  price_change : ℚ := 0
  emissions_reduction : ℚ := 0
  similarity_score : ℚ := 1 / 2
  brand_change : Bool := false

/-- The user-context dict with the `.get` defaults of
`_extract_features`. -/
structure UserContext where
  prior_acceptance_rate : ℚ := 3 / 10
  sustainability_score : ℚ := 1 / 2

/-- `AcceptanceModel`: `model` is `None` (no trained model) or a trained
classifier, modelled as its positive-class probability on the extracted
feature vector. -/
structure AcceptanceModel where
  model : Option (List ℚ → ℚ)

/-- `AcceptanceModel._extract_features`: the fixed 7-dimensional feature
vector. -/
def extract_features (swap : AccSwap) (user_context : UserContext)
    (message_type : String) : List ℚ :=
  [swap.price_change,
   swap.emissions_reduction,
   swap.similarity_score,
   if swap.brand_change then 1 else 0,
   user_context.prior_acceptance_rate,
   user_context.sustainability_score,
   if message_type = "conversational" then 1 else 0]

/-- `np.clip(x, 0.0, 1.0)` on a scalar. -/
def clip01 (x : ℚ) : ℚ :=
  min (max x 0) 1

/-- `AcceptanceModel._heuristic_acceptance`: base rate 0.17 for the
"numeric" message type and 0.36 otherwise, `*= 0.8` on a positive price
change, `*= 1.2` when the emissions reduction exceeds 5.0, clipped to
[0, 1]. -/
def heuristic_acceptance (swap : AccSwap) (message_type : String) : ℚ :=
  let base_rate : ℚ := if message_type = "numeric" then 17 / 100 else 36 / 100
  let base_rate := if 0 < swap.price_change then base_rate * (8 / 10) else base_rate
  let base_rate := if 5 < swap.emissions_reduction then base_rate * (12 / 10) else base_rate
  clip01 base_rate

/-- `AcceptanceModel.predict_acceptance`: the trained model's
positive-class probability on the extracted features, or the heuristic
when `model is None`. -/
def predict_acceptance (m : AcceptanceModel) (swap : AccSwap)
    (user_context : UserContext) (message_type : String) : ℚ :=
  match m.model with
  | none => heuristic_acceptance swap message_type
  | some f => f (extract_features swap user_context message_type)

/-- The dict returned by `simulate_swaps`: the swaps enriched with their
acceptance probabilities, the BAE total, and the average acceptance. -/
structure SimulateResult where
  swaps : List (AccSwap × ℚ)
  bae : ℚ
  avg_acceptance : ℚ

/-- `AcceptanceModel.simulate_swaps`: enrich each swap with its predicted
probability, accumulate `BAE = Σ p_s · ΔE_s`, and average the
probabilities (0.0 for an empty swap list). -/
def simulate_swaps (m : AcceptanceModel) (swaps : List AccSwap)
    (user_context : UserContext) (message_type : String) : SimulateResult :=
  let enriched_swaps := swaps.map (fun swap =>
    (swap, predict_acceptance m swap user_context message_type))
  let total_bae := (enriched_swaps.map (fun p => p.2 * p.1.emissions_reduction)).sum
  { swaps := enriched_swaps
    bae := total_bae
    avg_acceptance :=
      if enriched_swaps.isEmpty then 0
      else (enriched_swaps.map (fun p => p.2)).sum / (enriched_swaps.length : ℚ) }

/-! Concrete fixture catalogs and baskets, used to run the embedded code
on explicit inputs.  Category names outside the protein and milk families
keep candidate generation within one category. -/

/-- Fixture product: the original of the ranking run. -/
def prodVA : Product := ⟨"va", "VA", "Veggies", 60, 5, true, [], 1⟩

/-- Fixture product: emissions 59, reduction 1 against `prodVA`. -/
def prodVB : Product := ⟨"vb", "VB", "Veggies", 59, 5, true, [], 1⟩

/-- Fixture product: emissions 52, reduction 8 against `prodVA`. -/
def prodVC : Product := ⟨"vc", "VC", "Veggies", 52, 5, true, [], 1⟩

/-- Fixture engine for the ranking run; the index lists `vc` before `vb`
so that the sort actively orders the result. -/
def engA : SubstituteEngine :=
  ⟨[prodVA, prodVB, prodVC], [("Veggies", ["va", "vc", "vb"])], []⟩

/-- Fixture product at position 0 of the beam-search run (emissions 10). -/
def prodPA : Product := ⟨"pa", "PA", "CatP", 10, 5, true, [], 1⟩

/-- Fixture substitute for position 0 (emissions 1, same price). -/
def prodPB : Product := ⟨"pb", "PB", "CatP", 1, 5, true, [], 1⟩

/-- Fixture product at position 1 of the beam-search run. -/
def prodQE : Product := ⟨"qe", "QE", "CatQ", 5, 5, true, [], 1⟩

/-- Fixture substitute for position 1 whose price 100 violates the ±3%
cost constraint against the original basket's cost of 10. -/
def prodQD : Product := ⟨"qd", "QD", "CatQ", 1, 100, true, [], 1⟩

/-- Fixture engine for the beam-search run. -/
def engB : SubstituteEngine :=
  ⟨[prodPA, prodPB, prodQE, prodQD],
   [("CatP", ["pa", "pb"]), ("CatQ", ["qe", "qd"])], []⟩

/-- Optimizer over `engB` with the default config. -/
def optB : BasketOptimizer := ⟨{}, engB⟩

/-- Basket line holding `prodPA`. -/
def itemPA : Item :=
  { product_id := "pa", name := "PA", quantity := 1, price := 5, emissions := some 10,
    category := "CatP", health_score := some 1, vegetarian := some true, allergens := [] }

/-- Basket line holding `prodQE`. -/
def itemQE : Item :=
  { product_id := "qe", name := "QE", quantity := 1, price := 5, emissions := some 5,
    category := "CatQ", health_score := some 1, vegetarian := some true, allergens := [] }

/-- The two-line fixture basket. -/
def basketB : List Item := [itemPA, itemQE]

/-- The empty constraints dict. -/
def consD : Constraints := {}

/-- The line produced by swapping position 0 of `basketB` to `prodPB`. -/
def itemPBSwapped : Item :=
  { product_id := "pb", name := "PB", quantity := 1, price := 5, emissions := some 1,
    category := "CatP", health_score := some 1, vegetarian := some true, allergens := [] }

/-- The `SwapCandidate` that `get_substitutes` produces for `prodPB`
against `prodPA`. -/
def swapPB : SwapCandidate :=
  ⟨"pa", "pb", 9, 0, compute_similarity engB "pa" "pb", "CatP"⟩

/-- The `SwapCandidate` that `get_substitutes` produces for `prodQD`
against `prodQE`. -/
def swapQD : SwapCandidate :=
  ⟨"qe", "qd", 4, 95, compute_similarity engB "qe" "qd", "CatQ"⟩

/-- The beam state reached after position 0 of the fixture run: the
basket with the `pb` swap applied, and its objective score. -/
def stWon : BeamState :=
  ⟨[itemPBSwapped, itemQE], compute_objective optB [itemPBSwapped, itemQE] basketB⟩

/-- Fixture footprint row keyed by the category name `Beef`. -/
def fpBeef : ProductFootprint := ⟨"Beef", 60, 16, "Beef", "Poore & Nemecek 2018"⟩

/-- Fixture emissions engine with the single `Beef` row. -/
def engE : EmissionsEngine := ⟨[("Beef", fpBeef)]⟩

/-- An acceptance model with no trained model (`model is None`). -/
def modelFallback : AcceptanceModel := ⟨none⟩

/-- Fixture swap with a price increase and a large emissions reduction. -/
def swapH : AccSwap := { price_change := 1, emissions_reduction := 10 }

/-- Fixture product with an invariant-satisfying feature row. -/
def prodW1 : Product := ⟨"w1", "W1", "CatW", 10, 4, true, ["soy"], 1 / 2⟩

/-- Second fixture product with an invariant-satisfying feature row. -/
def prodW2 : Product := ⟨"w2", "W2", "CatW", 20, 8, false, [], 7 / 10⟩

/-- Fixture engine whose embeddings are created by `create_embedding`. -/
def engC : SubstituteEngine :=
  ⟨[prodW1, prodW2], [("CatW", ["w1", "w2"])],
   [("w1", create_embedding prodW1), ("w2", create_embedding prodW2)]⟩

end


/-! Theorems -/

/-- C6: `marginal_abatement_cost` is `+∞` (`⊤`) exactly when
`emissions_original − emissions_optimized ≤ 0`, is the quotient
`(cost_optimized − cost_original) / (emissions_original − emissions_optimized)`
otherwise, and the `mac_basket` field of `optimize_basket` obeys the same
rule applied to the original and optimized baskets' totals. -/
theorem c6_mac_inf_iff :
    (∀ cost_original cost_optimized emissions_original emissions_optimized : ℚ,
      (marginal_abatement_cost cost_original cost_optimized
          emissions_original emissions_optimized = ⊤
        ↔ emissions_original - emissions_optimized ≤ 0)
      ∧ (0 < emissions_original - emissions_optimized →
          marginal_abatement_cost cost_original cost_optimized
              emissions_original emissions_optimized
            = (((cost_optimized - cost_original)
                / (emissions_original - emissions_optimized) : ℚ) : WithTop ℚ)))
    ∧ (∀ (o : BasketOptimizer) (basket : List Item) (constraints : Constraints),
        (optimize_basket o basket constraints).mac_basket
          = marginal_abatement_cost (costOf basket)
              (optimize_basket o basket constraints).cost
              (emissionsOf basket)
              (optimize_basket o basket constraints).emissions) := by
  constructor
  · intro co cp eo ep
    simp only [marginal_abatement_cost]
    constructor
    · split_ifs with h
      · exact iff_of_true rfl h
      · exact iff_of_false (by simp) h
    · intro h
      rw [if_neg (by linarith)]
  · intro o basket constraints
    simp only [optimize_basket, marginal_abatement_cost]
    split_ifs <;> first | rfl | (exfalso; linarith)

/-- C6 witness: the `⊤`-free branch at the spec's concrete MAC scenario
(cost 100 → 101.9, emissions 50 → 42.15). -/
theorem c6_mac_witness :
    (0 : ℚ) < 50 - 843 / 20
    ∧ marginal_abatement_cost 100 (1019 / 10) 50 (843 / 20)
        = (((1019 / 10 - 100) / (50 - 843 / 20) : ℚ) : WithTop ℚ) :=
  ⟨by norm_num, (c6_mac_inf_iff.1 100 (1019 / 10) 50 (843 / 20)).2 (by norm_num)⟩

/-- C7 counterexample: over the swaps with (probability, reduction) pairs
(0.8, 10.0), (0.5, 5.0), (0.3, 3.0) the code computes
`BAE = 8 + 2.5 + 0.9 = 11.4`, not the claimed 10.9 (the repository's own
`test_behavior_adjusted_emissions` pins 11.4). -/
theorem c7_bae_value_counterexample :
    behavior_adjusted_emissions [⟨8 / 10, 10⟩, ⟨5 / 10, 5⟩, ⟨3 / 10, 3⟩] = 114 / 10
    ∧ (114 / 10 : ℚ) ≠ 109 / 10 := by
  constructor
  · norm_num [behavior_adjusted_emissions]
  · norm_num

/-- C7 (amended): `behavior_adjusted_emissions` and `simulate_swaps`
return `BAE = Σ p_s · ΔE_s` with `p_s` the predicted acceptance of each
swap, the mean acceptance over an empty swap list is 0, and over the three
swaps with (probability, reduction) pairs (0.8, 10.0), (0.5, 5.0),
(0.3, 3.0) the BAE is 11.4. -/
theorem c7_bae_amended :
    (∀ swaps : List BaeSwap,
      behavior_adjusted_emissions swaps
        = (swaps.map (fun swap => swap.acceptance_prob * swap.emissions_reduction)).sum)
    ∧ (∀ (m : AcceptanceModel) (swaps : List AccSwap) (u : UserContext) (mt : String),
        (simulate_swaps m swaps u mt).bae
          = (swaps.map (fun swap =>
              predict_acceptance m swap u mt * swap.emissions_reduction)).sum)
    ∧ (∀ (m : AcceptanceModel) (u : UserContext) (mt : String),
        (simulate_swaps m [] u mt).avg_acceptance = 0)
    ∧ behavior_adjusted_emissions [⟨8 / 10, 10⟩, ⟨5 / 10, 5⟩, ⟨3 / 10, 3⟩] = 114 / 10 := by
  refine ⟨fun swaps => rfl, fun m swaps u mt => ?_, fun m u mt => rfl, by norm_num [behavior_adjusted_emissions]⟩
  simp only [simulate_swaps, List.map_map]
  rfl

/-- C3 counterexample: `carbon_opportunity_gap 1 2` has a strictly
positive original emissions total yet a negative COG ratio, refuting
`0 ≤ COG_ratio` (the optimized side may exceed the original). -/
theorem c3_cog_ratio_negative :
    (0 : ℚ) < 1 ∧ (carbon_opportunity_gap 1 2).2 < 0 := by
  norm_num [carbon_opportunity_gap]

/-- C9: with no trained model, `predict_acceptance` is exactly the
heuristic: base rate 0.17 for "numeric" and 0.36 otherwise, times 0.8 on a
strictly positive price change, times 1.2 when the emissions reduction
exceeds 5.0, clipped to [0, 1]. -/
theorem c9_heuristic_fallback (m : AcceptanceModel) (swap : AccSwap)
    (user_context : UserContext) (message_type : String) (h : m.model = none) :
    predict_acceptance m swap user_context message_type
      = clip01 ((if message_type = "numeric" then (17 : ℚ) / 100 else 36 / 100)
          * (if 0 < swap.price_change then 8 / 10 else 1)
          * (if 5 < swap.emissions_reduction then 12 / 10 else 1)) := by
  unfold predict_acceptance
  rw [h]
  unfold heuristic_acceptance
  split_ifs <;> ring_nf

/-- C9 witness: the heuristic at a concrete model-free state, a
conversational message, a price increase and a reduction above 5. -/
theorem c9_heuristic_witness :
    modelFallback.model = none
    ∧ predict_acceptance modelFallback swapH {} "conversational"
        = clip01 ((36 : ℚ) / 100 * (8 / 10) * (12 / 10)) := by
  refine ⟨rfl, ?_⟩
  have h := c9_heuristic_fallback modelFallback swapH {} "conversational" rfl
  have hne : ("conversational" : String) ≠ "numeric" := by decide
  rw [h, if_neg hne]
  norm_num [swapH, clip01]

/-- The accumulation loop of `calculate_basket_emissions`, characterized
against the per-item sums it computes. -/
theorem emissionsStep_foldl (e : EmissionsEngine) (basket : List Item)
    (a b : ℚ) (l : List (String × ℚ × ℚ)) :
    basket.foldl (emissionsStep e) (a, b, l)
      = (a + (basket.map (fun item =>
            (get_product_footprint e item.product_id).emissions_mean * item.quantity)).sum,
         b + (basket.map (fun item =>
            (get_product_footprint e item.product_id).emissions_variance * item.quantity ^ 2)).sum,
         l ++ basket.map (fun item => (item.product_id,
            (get_product_footprint e item.product_id).emissions_mean * item.quantity,
            (get_product_footprint e item.product_id).emissions_variance * item.quantity ^ 2))) := by
  induction basket generalizing a b l with
  | nil => simp
  | cons item rest ih =>
    simp only [List.foldl_cons, List.map_cons, List.sum_cons, emissionsStep, ih]
    refine congrArg₂ _ (by ring) (congrArg₂ _ (by ring) ?_)
    simp

/-- C5: `calculate_basket_emissions` totals the per-item
`emissions_mean · quantity` and `emissions_variance · quantity²` (no
covariance term) and sets `RACS = emissions + 1.96 · √variance`;
`risk_adjusted_carbon_score` is `mean + z_α · √variance` with the z table
`{0.90 → 1.645, 0.95 → 1.96, 0.99 → 2.576}` and 1.96 for any other
confidence level. -/
theorem c5_basket_emissions_spec :
    (∀ (e : EmissionsEngine) (basket : List Item),
      (calculate_basket_emissions e basket).emissions
          = (basket.map (fun item =>
              (get_product_footprint e item.product_id).emissions_mean * item.quantity)).sum
        ∧ (calculate_basket_emissions e basket).variance
          = (basket.map (fun item =>
              (get_product_footprint e item.product_id).emissions_variance * item.quantity ^ 2)).sum
        ∧ (calculate_basket_emissions e basket).racs
          = ((calculate_basket_emissions e basket).emissions : ℝ)
            + (196 / 100 : ℝ) * Real.sqrt ((calculate_basket_emissions e basket).variance : ℝ))
    ∧ (∀ emissions_mean emissions_variance confidence_level : ℚ,
        risk_adjusted_carbon_score emissions_mean emissions_variance confidence_level
          = (emissions_mean : ℝ)
            + (zAlphaOf confidence_level : ℝ) * Real.sqrt (emissions_variance : ℝ))
    ∧ zAlphaOf (90 / 100) = 1645 / 1000
    ∧ zAlphaOf (95 / 100) = 196 / 100
    ∧ zAlphaOf (99 / 100) = 2576 / 1000
    ∧ (∀ c : ℚ, c ≠ 90 / 100 → c ≠ 95 / 100 → c ≠ 99 / 100 → zAlphaOf c = 196 / 100) := by
  refine ⟨fun e basket => ?_, fun m v c => rfl, by norm_num [zAlphaOf],
    by norm_num [zAlphaOf], by norm_num [zAlphaOf], fun c h1 h2 h3 => ?_⟩
  · simp only [calculate_basket_emissions, emissionsStep_foldl]
    norm_num
  · simp only [zAlphaOf, if_neg h1, if_neg h2, if_neg h3]

/-- C5 witness: the z-table default at the out-of-table confidence level
one half. -/
theorem c5_basket_emissions_witness :
    ((1 : ℚ) / 2 ≠ 90 / 100) ∧ ((1 : ℚ) / 2 ≠ 95 / 100) ∧ ((1 : ℚ) / 2 ≠ 99 / 100)
    ∧ zAlphaOf (1 / 2) = 196 / 100 :=
  ⟨by norm_num, by norm_num, by norm_num,
    c5_basket_emissions_spec.2.2.2.2.2 (1 / 2) (by norm_num) (by norm_num) (by norm_num)⟩

/-- C8: `get_product_footprint` resolves, in order, the exact product-id
entry, then the first category of the db whose lowered name is a substring
of the lowered product id, and otherwise the fixed default footprint
(mean 5.0, variance 2.0, category "Unknown"); being a total function, it
never raises for an unknown product. -/
theorem c8_footprint_resolution (e : EmissionsEngine) (product_id : String) :
    (∀ footprint, e.footprint_db.lookup product_id = some footprint →
        get_product_footprint e product_id = footprint)
    ∧ (e.footprint_db.lookup product_id = none →
        ∀ kv, e.footprint_db.find?
            (fun kv => occursIn (lowerChars kv.1) (lowerChars product_id)) = some kv →
          get_product_footprint e product_id = kv.2)
    ∧ (e.footprint_db.lookup product_id = none →
        e.footprint_db.find?
            (fun kv => occursIn (lowerChars kv.1) (lowerChars product_id)) = none →
        get_product_footprint e product_id
          = { product_id := product_id, emissions_mean := 5, emissions_variance := 2,
              category := "Unknown", source := "Default" }) := by
  refine ⟨fun footprint h => ?_, fun h kv hkv => ?_, fun h hf => ?_⟩
  · simp only [get_product_footprint, h]
  · simp only [get_product_footprint, h, hkv]
  · simp only [get_product_footprint, h, hf]

/-- C8 witness: the substring fallback at the unknown id
`organic_beef_mince` against the single-row `Beef` db. -/
theorem c8_footprint_resolution_witness :
    engE.footprint_db.lookup "organic_beef_mince" = none
    ∧ engE.footprint_db.find?
        (fun kv => occursIn (lowerChars kv.1) (lowerChars "organic_beef_mince"))
        = some ("Beef", fpBeef)
    ∧ get_product_footprint engE "organic_beef_mince" = fpBeef := by
  have h1 : engE.footprint_db.lookup "organic_beef_mince" = none := by decide
  have h2 : engE.footprint_db.find?
      (fun kv => occursIn (lowerChars kv.1) (lowerChars "organic_beef_mince"))
      = some ("Beef", fpBeef) := by decide
  exact ⟨h1, h2, (c8_footprint_resolution engE "organic_beef_mince").2.1 h1 ("Beef", fpBeef) h2⟩

/-- Membership in a stable insertion. -/
theorem mem_insertIn (le : α → α → Bool) (x a : α) (l : List α) :
    a ∈ insertIn le x l ↔ a = x ∨ a ∈ l := by
  induction l with
  | nil => simp [insertIn]
  | cons y ys ih =>
    simp only [insertIn]
    split_ifs with h
    · simp [List.mem_cons]
    · simp only [List.mem_cons, ih]
      tauto

/-- `sortListBy` is a permutation in the weak sense needed here: it keeps
exactly the members of its input. -/
theorem mem_sortListBy (le : α → α → Bool) (a : α) (l : List α) :
    a ∈ sortListBy le l ↔ a ∈ l := by
  induction l with
  | nil => simp [sortListBy]
  | cons x xs ih => simp [sortListBy, mem_insertIn, ih]

/-- `insertIn` adds one element to the length. -/
theorem length_insertIn (le : α → α → Bool) (x : α) (l : List α) :
    (insertIn le x l).length = l.length + 1 := by
  induction l with
  | nil => rfl
  | cons y ys ih =>
    simp only [insertIn]
    split_ifs with h
    · rfl
    · simp [ih]

/-- `sortListBy` preserves the length. -/
theorem length_sortListBy (le : α → α → Bool) (l : List α) :
    (sortListBy le l).length = l.length := by
  induction l with
  | nil => rfl
  | cons x xs ih => simp [sortListBy, length_insertIn, ih]

/-- A basket of items with nonnegative `emissions` defaults has a
nonnegative emissions total. -/
theorem emissionsOf_nonneg (basket : List Item)
    (h : ∀ item ∈ basket, 0 ≤ item.emissions.getD 0) : 0 ≤ emissionsOf basket := by
  apply List.sum_nonneg
  intro x hx
  rcases List.mem_map.mp hx with ⟨item, hitem, rfl⟩
  exact h item hitem

/-- `_apply_swap` keeps item emissions nonnegative when the catalog's
emissions are nonnegative. -/
theorem apply_swap_emissions_ok (o : BasketOptimizer) (basket : List Item)
    (product_idx : ℕ) (swap : SwapCandidate)
    (hdb : ∀ p ∈ o.engine.product_db, 0 ≤ p.emissions)
    (hb : ∀ item ∈ basket, 0 ≤ item.emissions.getD 0) :
    ∀ item ∈ apply_swap o basket product_idx swap, 0 ≤ item.emissions.getD 0 := by
  intro item hitem
  cases hfind : get_product_info o.engine swap.substitute_product_id with
  | none =>
    simp only [apply_swap, hfind] at hitem
    exact hb item hitem
  | some p =>
    simp only [apply_swap, hfind] at hitem
    rcases List.mem_or_eq_of_mem_set hitem with hmem | rfl
    · exact hb item hmem
    · have hp : p ∈ o.engine.product_db := List.mem_of_find?_eq_some hfind
      simpa using hdb p hp

/-- One beam-search transition keeps every beam basket's item emissions
nonnegative when the catalog's emissions are nonnegative. -/
theorem beamStep_emissions_ok (o : BasketOptimizer) (original_basket : List Item)
    (constraints : Constraints) (beam : List BeamState) (product_idx : ℕ) (item : Item)
    (hdb : ∀ p ∈ o.engine.product_db, 0 ≤ p.emissions)
    (hbeam : ∀ st ∈ beam, ∀ it ∈ st.basket, 0 ≤ it.emissions.getD 0) :
    ∀ st ∈ beamStep o original_basket constraints beam product_idx item,
      ∀ it ∈ st.basket, 0 ≤ it.emissions.getD 0 := by
  intro st hst
  simp only [beamStep] at hst
  by_cases hni : (beamCandidates o original_basket constraints beam product_idx item).isEmpty
  · rw [if_pos hni] at hst
    exact hbeam st hst
  · rw [if_neg hni] at hst
    have hst' := List.take_subset _ _ hst
    rw [mem_sortListBy] at hst'
    rw [beamCandidates] at hst'
    rcases List.mem_flatMap.mp hst' with ⟨prev, hprev, hmem⟩
    rcases List.mem_append.mp hmem with hleft | hright
    · rcases List.mem_filterMap.mp hleft with ⟨sub, hsub, heq⟩
      dsimp only at heq
      split at heq
      · cases heq
        exact apply_swap_emissions_ok o prev.basket product_idx sub hdb (hbeam prev hprev)
      · cases heq
    · split at hright
      · rw [List.mem_singleton.mp hright]
        exact hbeam prev hprev
      · cases hright

/-- The whole beam-search loop keeps every beam basket's item emissions
nonnegative. -/
theorem beamLoop_emissions_ok (o : BasketOptimizer) (original_basket : List Item)
    (constraints : Constraints) (items : List Item) (product_idx : ℕ)
    (beam : List BeamState)
    (hdb : ∀ p ∈ o.engine.product_db, 0 ≤ p.emissions)
    (hbeam : ∀ st ∈ beam, ∀ it ∈ st.basket, 0 ≤ it.emissions.getD 0) :
    ∀ st ∈ beamLoop o original_basket constraints product_idx items beam,
      ∀ it ∈ st.basket, 0 ≤ it.emissions.getD 0 := by
  induction items generalizing product_idx beam with
  | nil => exact hbeam
  | cons item rest ih =>
    exact ih (product_idx + 1) _
      (beamStep_emissions_ok o original_basket constraints beam product_idx item hdb hbeam)

/-- C3 (amended): the COG ratio of `carbon_opportunity_gap` is at most 1
when the original emissions are positive and the optimized emissions are
nonnegative, is nonnegative only under the extra hypothesis that the
optimized emissions do not exceed the original (the optimizer can raise
emissions, making the ratio negative), and is 0 when the original
emissions are 0 (but not only then); `optimize_basket`'s COG ratio is at
most 1, and 0 at a zero original total, whenever the catalog and basket
emissions are nonnegative. -/
theorem c3_cog_ratio_amended :
    (∀ emissions_original emissions_optimized : ℚ, 0 < emissions_original →
      0 ≤ emissions_optimized →
      (carbon_opportunity_gap emissions_original emissions_optimized).2 ≤ 1)
    ∧ (∀ emissions_original emissions_optimized : ℚ, 0 < emissions_original →
        emissions_optimized ≤ emissions_original →
        0 ≤ (carbon_opportunity_gap emissions_original emissions_optimized).2)
    ∧ (∀ emissions_original emissions_optimized : ℚ, emissions_original = 0 →
        (carbon_opportunity_gap emissions_original emissions_optimized).2 = 0)
    ∧ (∀ (o : BasketOptimizer) (basket : List Item) (constraints : Constraints),
        (∀ p ∈ o.engine.product_db, 0 ≤ p.emissions) →
        (∀ item ∈ basket, 0 ≤ item.emissions.getD 0) →
        (optimize_basket o basket constraints).cog_ratio ≤ 1
        ∧ (emissionsOf basket = 0 → (optimize_basket o basket constraints).cog_ratio = 0)) := by
  refine ⟨fun eo ep h0 hp => ?_, fun eo ep h0 hle => ?_, fun eo ep h0 => ?_,
    fun o basket constraints hdb hb => ?_⟩
  · simp only [carbon_opportunity_gap, if_pos h0]
    rw [div_le_one h0]
    linarith
  · simp only [carbon_opportunity_gap, if_pos h0]
    exact div_nonneg (by linarith) h0.le
  · simp only [carbon_opportunity_gap, h0]
    norm_num
  · have hinit : ∀ st ∈ [(⟨basket, compute_objective o basket basket⟩ : BeamState)],
        ∀ it ∈ st.basket, 0 ≤ it.emissions.getD 0 := by
      intro st hst
      rcases List.mem_singleton.mp hst with rfl
      exact hb
    have hopt : ∀ it ∈ (optimize_basket o basket constraints).optimized_basket,
        0 ≤ it.emissions.getD 0 := by
      simp only [optimize_basket]
      cases hres : beamLoop o basket constraints 0 basket
          [⟨basket, compute_objective o basket basket⟩] with
      | nil => exact hb
      | cons best rest =>
        have hmem := beamLoop_emissions_ok o basket constraints basket 0 _ hdb hinit
        rw [hres] at hmem
        exact hmem best (List.mem_cons_self best rest)
    have h0 : 0 ≤ emissionsOf ((optimize_basket o basket constraints).optimized_basket) :=
      emissionsOf_nonneg _ hopt
    constructor
    · show (optimize_basket o basket constraints).cog_ratio ≤ 1
      simp only [optimize_basket] at h0 ⊢
      split_ifs with hpos
      · rw [div_le_one hpos]
        linarith
      · norm_num
    · intro hz
      simp only [optimize_basket]
      rw [if_neg (by rw [hz]; exact lt_irrefl 0)]

/-- C3 witness: the pure-metric bound at (2, 1) and the optimizer bound on
the concrete fixture catalog and basket. -/
theorem c3_cog_ratio_witness :
    ((0 : ℚ) < 2 ∧ (0 : ℚ) ≤ 1 ∧ (carbon_opportunity_gap 2 1).2 ≤ 1)
    ∧ ((∀ p ∈ optB.engine.product_db, 0 ≤ p.emissions)
      ∧ (∀ item ∈ basketB, 0 ≤ item.emissions.getD 0)
      ∧ (optimize_basket optB basketB consD).cog_ratio ≤ 1) := by
  have hdb : ∀ p ∈ optB.engine.product_db, 0 ≤ p.emissions := by
    intro p hp
    simp only [optB, engB, List.mem_cons, List.not_mem_nil, or_false] at hp
    rcases hp with rfl | rfl | rfl | rfl <;> norm_num [prodPA, prodPB, prodQE, prodQD]
  have hb : ∀ item ∈ basketB, 0 ≤ item.emissions.getD 0 := by
    intro item hitem
    simp only [basketB, List.mem_cons, List.not_mem_nil, or_false] at hitem
    rcases hitem with rfl | rfl <;> norm_num [itemPA, itemQE]
  exact ⟨⟨by norm_num, by norm_num, c3_cog_ratio_amended.1 2 1 (by norm_num) (by norm_num)⟩,
    hdb, hb, (c3_cog_ratio_amended.2.2.2 optB basketB consD hdb hb).1⟩

/-- C4: at every beam-search position the substitute candidates are
fetched for the product that occupied that position in the original
basket, identically for every state in the beam and regardless of what a
state currently holds there: the per-state fetch of `beamStep` equals the
hoisted transition `beamStepHoisted`, which fetches once per position from
the original basket's item (even over arbitrary beams whose states differ
at that position), and `optimize_basket` coincides with the optimizer
built over the hoisted transition. -/
theorem c4_substitutes_keyed_by_original :
    (∀ (o : BasketOptimizer) (original_basket : List Item) (constraints : Constraints)
        (beam : List BeamState) (product_idx : ℕ) (item : Item),
      beamStep o original_basket constraints beam product_idx item
        = beamStepHoisted o original_basket constraints beam product_idx item)
    ∧ (∀ (o : BasketOptimizer) (basket : List Item) (constraints : Constraints),
        optimize_basket o basket constraints = optimize_basket_hoisted o basket constraints) := by
  have hstep : ∀ (o : BasketOptimizer) (original_basket : List Item)
      (constraints : Constraints) (beam : List BeamState) (product_idx : ℕ) (item : Item),
      beamStep o original_basket constraints beam product_idx item
        = beamStepHoisted o original_basket constraints beam product_idx item :=
    fun o original_basket constraints beam product_idx item => rfl
  have hloop : ∀ (o : BasketOptimizer) (original_basket : List Item)
      (constraints : Constraints) (items : List Item) (product_idx : ℕ)
      (beam : List BeamState),
      beamLoop o original_basket constraints product_idx items beam
        = beamLoopHoisted o original_basket constraints product_idx items beam := by
    intro o original_basket constraints items
    induction items with
    | nil => intro product_idx beam; rfl
    | cons item rest ih =>
      intro product_idx beam
      simp only [beamLoop, beamLoopHoisted, hstep, ih]
  exact ⟨hstep, fun o basket constraints => by
    simp only [optimize_basket, optimize_basket_hoisted, hloop]⟩

/-- Evaluation: the substitutes fetched for `pa` on the fixture catalog. -/
theorem get_substitutes_pa : get_substitutes optB "pa" consD = [swapPB] := by
  simp +decide [get_substitutes, swapPB, find_substitutes, get_product_info, get_candidates,
    filter_by_constraints, dedupFirst, sortListBy, insertIn, rankLE, optB, engB,
    prodPA, prodPB, prodQE, prodQD, consD, List.find?, List.lookup, List.flatMap]
  norm_num

/-- Evaluation: the substitutes fetched for `qe` on the fixture catalog. -/
theorem get_substitutes_qe : get_substitutes optB "qe" consD = [swapQD] := by
  simp +decide [get_substitutes, swapQD, find_substitutes, get_product_info, get_candidates,
    filter_by_constraints, dedupFirst, sortListBy, insertIn, rankLE, optB, engB,
    prodPA, prodPB, prodQE, prodQD, consD, List.find?, List.lookup, List.flatMap]
  norm_num

/-- Evaluation: applying the `pb` swap at position 0 of the fixture
basket. -/
theorem apply_swapPB : apply_swap optB basketB 0 swapPB = [itemPBSwapped, itemQE] := by
  simp +decide [apply_swap, swapPB, get_product_info, optB, engB, prodPA, prodPB, prodQE,
    prodQD, basketB, itemPA, itemQE, itemPBSwapped, List.find?]

/-- Evaluation: the `pb`-swapped basket keeps the fixture cost unchanged
and satisfies the constraints. -/
theorem satisfiesPB : satisfies_constraints optB [itemPBSwapped, itemQE] basketB consD = true := by
  simp +decide [satisfies_constraints, costOf, optB, basketB, itemPA, itemQE, itemPBSwapped, consD]
  norm_num

/-- Evaluation: the `qd` swap on the swapped basket violates the ±3% cost
constraint against the original basket. -/
theorem satisfiesQD : satisfies_constraints optB
    (apply_swap optB [itemPBSwapped, itemQE] 1 swapQD) basketB consD = false := by
  simp +decide [satisfies_constraints, apply_swap, swapQD, get_product_info, costOf, optB, engB,
    prodPA, prodPB, prodQE, prodQD, basketB, itemPA, itemQE, itemPBSwapped, consD, List.find?]
  norm_num

/-- Evaluation: the `qd` swap on the original basket also violates the
±3% cost constraint. -/
theorem satisfiesQD0 : satisfies_constraints optB
    (apply_swap optB basketB 1 swapQD) basketB consD = false := by
  simp +decide [satisfies_constraints, apply_swap, swapQD, get_product_info, costOf, optB, engB,
    prodPA, prodPB, prodQE, prodQD, basketB, itemPA, itemQE, consD, List.find?]
  norm_num

/-- Evaluation: the beam-search transition at position 0 of the fixture
run swaps `pa` for `pb` and drops the unmodified state. -/
theorem beamStep0 : beamStep optB basketB consD
    [⟨basketB, compute_objective optB basketB basketB⟩] 0 itemPA = [stWon] := by
  simp [beamStep, beamCandidates, show itemPA.product_id = "pa" from rfl, get_substitutes_pa,
    apply_swapPB, satisfiesPB, sortListBy, insertIn, stWon, List.flatMap,
    show (1 : ℕ) ≤ optB.config.beam_width from by norm_num [optB]]

/-- Evaluation: at position 1 the only candidate is constraint-filtered,
`new_beam` is empty, and the transition returns the incoming beam
unchanged. -/
theorem beamStep1 : beamStep optB basketB consD [stWon] 1 itemQE = [stWon] := by
  simp [beamStep, beamCandidates, show itemQE.product_id = "qe" from rfl, get_substitutes_qe,
    stWon, satisfiesQD, List.flatMap]

/-- Evaluation: the whole fixture beam search ends in the `pb`-swapped
state. -/
theorem beamLoop_evalB : beamLoop optB basketB consD 0 basketB
    [⟨basketB, compute_objective optB basketB basketB⟩] = [stWon] := by
  show beamLoop optB basketB consD 0 [itemPA, itemQE]
    [⟨basketB, compute_objective optB basketB basketB⟩] = [stWon]
  simp only [beamLoop, beamStep0, Nat.zero_add, beamStep1]

/-- When every state's candidates at a position are all
constraint-filtered and substitutes exist, `new_beam` is empty and the
transition keeps the whole previous beam. -/
theorem beamStep_all_filtered (o : BasketOptimizer) (original_basket : List Item)
    (constraints : Constraints) (beam : List BeamState) (product_idx : ℕ) (item : Item)
    (hsubs : get_substitutes o item.product_id constraints ≠ [])
    (hfail : ∀ st ∈ beam, ∀ sub ∈ get_substitutes o item.product_id constraints,
      satisfies_constraints o (apply_swap o st.basket product_idx sub)
        original_basket constraints = false) :
    beamStep o original_basket constraints beam product_idx item = beam := by
  have hcand : beamCandidates o original_basket constraints beam product_idx item = [] := by
    rw [beamCandidates, List.flatMap_eq_nil_iff]
    intro st hst
    rw [List.append_eq_nil]
    constructor
    · rw [List.filterMap_eq_nil_iff]
      intro sub hsub
      dsimp only
      rw [if_neg]
      simp [hfail st hst sub hsub]
    · rw [if_neg]
      simp [List.isEmpty_iff, hsubs]
  rw [beamStep, hcand]
  rfl

/-- A nonempty beam stays nonempty across one transition when the beam
width is at least 1. -/
theorem beamStep_ne_nil (o : BasketOptimizer) (original_basket : List Item)
    (constraints : Constraints) (beam : List BeamState) (product_idx : ℕ) (item : Item)
    (hbeam : beam ≠ []) (hw : 1 ≤ o.config.beam_width) :
    beamStep o original_basket constraints beam product_idx item ≠ [] := by
  rw [beamStep]
  split_ifs with h
  · exact hbeam
  · intro hnil
    have hlen := congrArg List.length hnil
    rw [List.length_take, length_sortListBy] at hlen
    have hpos : 0 < (beamCandidates o original_basket constraints beam product_idx item).length := by
      apply List.length_pos.mpr
      intro hend
      rw [hend] at h
      exact h rfl
    simp only [List.length_nil] at hlen
    omega

/-- A nonempty beam stays nonempty across the whole loop when the beam
width is at least 1. -/
theorem beamLoop_ne_nil (o : BasketOptimizer) (original_basket : List Item)
    (constraints : Constraints) (items : List Item) (product_idx : ℕ)
    (beam : List BeamState) (hbeam : beam ≠ []) (hw : 1 ≤ o.config.beam_width) :
    beamLoop o original_basket constraints product_idx items beam ≠ [] := by
  induction items generalizing product_idx beam with
  | nil => exact hbeam
  | cons item rest ih =>
    exact ih (product_idx + 1) _
      (beamStep_ne_nil o original_basket constraints beam product_idx item hbeam hw)

/-- C1: on the fixture catalog (original `va` with emissions 60;
candidates `vb` with reduction 1 and `vc` with reduction 8, listed in the
index as `vc` before `vb`), `find_substitutes` returns `vb` before `vc` —
the sort key `(-emissions + original.emissions, -similarity)` under
Python's ascending sort orders candidates by *ascending* emissions
reduction, so the least-reducing candidate comes first and, with
truncation to `max_results`, the largest reductions are the first to be
dropped; the spec's descending ranking is the evident intent (the engine
ranks "by suitability" for low-carbon swaps), so the code's sign is a
slip. -/
theorem c1_find_substitutes_order :
    (find_substitutes engA "va" consD 10).map (fun s => s.product_id) = ["vb", "vc"]
    ∧ (find_substitutes engA "va" consD 10).map (fun s => prodVA.emissions - s.emissions)
        = [1, 8] := by
  constructor <;>
  · simp +decide [find_substitutes, get_product_info, get_candidates, filter_by_constraints,
      dedupFirst, sortListBy, insertIn, rankLE, engA, prodVA, prodVB, prodVC, consD,
      List.find?, List.lookup, List.flatMap]
    norm_num

/-- C2 counterexample: a reachable two-position fixture run in which, at
position 1, the (single) beam state has exactly one substitute candidate
and every candidate basket fails the constraint check — yet the state is
carried forward (the transition returns the previous beam unchanged, so
the beam does not become empty), and the optimizer returns the
position-0-swapped basket rather than the original. -/
theorem c2_beam_not_emptied :
    (beamStep optB basketB consD [⟨basketB, compute_objective optB basketB basketB⟩]
        0 itemPA).map (fun st => st.basket) = [[itemPBSwapped, itemQE]]
    ∧ (get_substitutes optB itemQE.product_id consD).length = 1
    ∧ (get_substitutes optB itemQE.product_id consD).all (fun sub =>
        !(satisfies_constraints optB (apply_swap optB [itemPBSwapped, itemQE] 1 sub)
          basketB consD)) = true
    ∧ beamStep optB basketB consD
        (beamStep optB basketB consD [⟨basketB, compute_objective optB basketB basketB⟩]
          0 itemPA) 1 itemQE
      = beamStep optB basketB consD [⟨basketB, compute_objective optB basketB basketB⟩]
          0 itemPA
    ∧ (optimize_basket optB basketB consD).optimized_basket = [itemPBSwapped, itemQE] := by
  refine ⟨?_, ?_, ?_, ?_, ?_⟩
  · rw [beamStep0]
    simp [stWon]
  · rw [show itemQE.product_id = "qe" from rfl, get_substitutes_qe]
    rfl
  · rw [show itemQE.product_id = "qe" from rfl, get_substitutes_qe]
    simp [satisfiesQD]
  · rw [beamStep0, beamStep1]
  · simp only [optimize_basket, beamLoop_evalB]
    simp [stWon]

/-- C2 (amended): when candidates exist at a position but every candidate
basket of every beam state fails the constraint check, `new_beam` is empty
and the *entire previous beam* is carried forward unchanged (`else: pass`)
— individual states are dropped only when other states still contribute —
so the beam never becomes empty when the beam width is at least 1; the
empty-beam fallback then returns the original basket unmodified. -/
theorem c2_carry_forward_amended :
    (∀ (o : BasketOptimizer) (original_basket : List Item) (constraints : Constraints)
        (beam : List BeamState) (product_idx : ℕ) (item : Item),
      get_substitutes o item.product_id constraints ≠ [] →
      (∀ st ∈ beam, ∀ sub ∈ get_substitutes o item.product_id constraints,
        satisfies_constraints o (apply_swap o st.basket product_idx sub)
          original_basket constraints = false) →
      beamStep o original_basket constraints beam product_idx item = beam)
    ∧ (∀ (o : BasketOptimizer) (original_basket : List Item) (constraints : Constraints)
        (items : List Item) (product_idx : ℕ) (beam : List BeamState),
        beam ≠ [] → 1 ≤ o.config.beam_width →
        beamLoop o original_basket constraints product_idx items beam ≠ [])
    ∧ (∀ (o : BasketOptimizer) (basket : List Item) (constraints : Constraints),
        beamLoop o basket constraints 0 basket
            [⟨basket, compute_objective o basket basket⟩] = [] →
        (optimize_basket o basket constraints).optimized_basket = basket) :=
  ⟨beamStep_all_filtered, beamLoop_ne_nil,
    fun o basket constraints h => by simp only [optimize_basket, h]⟩

/-- C2 witness: the carry-forward theorem applied at the fixture position
1, where the single candidate violates the cost constraint. -/
theorem c2_carry_forward_witness :
    get_substitutes optB itemQE.product_id consD ≠ []
    ∧ beamStep optB basketB consD [⟨basketB, 0⟩] 1 itemQE = [⟨basketB, 0⟩] := by
  have hsubs : get_substitutes optB itemQE.product_id consD ≠ [] := by
    rw [show itemQE.product_id = "qe" from rfl, get_substitutes_qe]
    simp
  refine ⟨hsubs, c2_carry_forward_amended.1 optB basketB consD [⟨basketB, 0⟩] 1 itemQE hsubs ?_⟩
  intro st hst sub hsub
  rw [show itemQE.product_id = "qe" from rfl, get_substitutes_qe] at hsub
  rcases List.mem_singleton.mp hsub with rfl
  rcases List.mem_singleton.mp hst with rfl
  exact satisfiesQD0

/-- A successful dict lookup is a member of the association list. -/
theorem lookup_mem {β : Type} {l : List (String × β)} {k : String} {v : β}
    (h : l.lookup k = some v) : (k, v) ∈ l := by
  induction l with
  | nil => simp [List.lookup] at h
  | cons p rest ih =>
    obtain ⟨pk, pv⟩ := p
    rw [List.lookup] at h
    cases hbeq : (k == pk) with
    | true =>
      rw [hbeq] at h
      obtain rfl : pv = v := by simpa using h
      have hk : k = pk := beq_iff_eq.mp hbeq
      subst hk
      exact List.mem_cons_self _ _
    | false =>
      rw [hbeq] at h
      exact List.mem_cons_of_mem _ (ih h)

/-- A sum of squares is nonnegative. -/
theorem sumSq_nonneg (a : List ℚ) : 0 ≤ sumSq a := by
  apply List.sum_nonneg
  intro x hx
  rcases List.mem_map.mp hx with ⟨y, hy, rfl⟩
  exact mul_self_nonneg y

/-- A dot product of componentwise-nonnegative vectors is nonnegative. -/
theorem dotList_nonneg (a : List ℚ) (ha : ∀ x ∈ a, 0 ≤ x) :
    ∀ b : List ℚ, (∀ y ∈ b, 0 ≤ y) → 0 ≤ dotList a b := by
  induction a with
  | nil => intro b hb; simp [dotList]
  | cons x xs ih =>
    intro b hb
    cases b with
    | nil => simp [dotList]
    | cons y ys =>
      simp only [dotList, List.zipWith_cons_cons, List.sum_cons]
      have h1 : 0 ≤ x * y :=
        mul_nonneg (ha x (List.mem_cons_self x xs)) (hb y (List.mem_cons_self y ys))
      have h2 : 0 ≤ dotList xs ys :=
        ih (fun z hz => ha z (List.mem_cons_of_mem x hz)) ys
          (fun z hz => hb z (List.mem_cons_of_mem y hz))
      simpa [dotList] using add_nonneg h1 h2

/-- Under the data-model invariants every feature of `_create_embedding`
is nonnegative. -/
theorem create_embedding_nonneg (p : Product) (hpe : 0 ≤ p.emissions) (hpp : 0 ≤ p.price)
    (hph : 0 ≤ p.health) : ∀ x ∈ create_embedding p, 0 ≤ x := by
  intro x hx
  simp only [create_embedding, List.mem_cons, List.not_mem_nil, or_false] at hx
  rcases hx with rfl | rfl | rfl | rfl | rfl
  · positivity
  · positivity
  · exact hph
  · split_ifs <;> norm_num
  · positivity

/-- The Cauchy–Schwarz inequality for five summands. -/
theorem cauchy5 (a1 a2 a3 a4 a5 b1 b2 b3 b4 b5 : ℚ) :
    (a1*b1 + (a2*b2 + (a3*b3 + (a4*b4 + a5*b5))))
      * (a1*b1 + (a2*b2 + (a3*b3 + (a4*b4 + a5*b5))))
      ≤ (a1*a1 + (a2*a2 + (a3*a3 + (a4*a4 + a5*a5))))
        * (b1*b1 + (b2*b2 + (b3*b3 + (b4*b4 + b5*b5)))) := by
  nlinarith [sq_nonneg (a1*b2 - a2*b1), sq_nonneg (a1*b3 - a3*b1), sq_nonneg (a1*b4 - a4*b1),
    sq_nonneg (a1*b5 - a5*b1), sq_nonneg (a2*b3 - a3*b2), sq_nonneg (a2*b4 - a4*b2),
    sq_nonneg (a2*b5 - a5*b2), sq_nonneg (a3*b4 - a4*b3), sq_nonneg (a3*b5 - a5*b3),
    sq_nonneg (a4*b5 - a5*b4)]

/-- Cauchy–Schwarz for the five-dimensional feature embeddings. -/
theorem create_embedding_cauchy (p q : Product) :
    dotList (create_embedding p) (create_embedding q)
      * dotList (create_embedding p) (create_embedding q)
      ≤ sumSq (create_embedding p) * sumSq (create_embedding q) := by
  simp only [create_embedding, dotList, sumSq, List.zipWith_cons_cons, List.zipWith_nil_right,
    List.map_cons, List.map_nil, List.sum_cons, List.sum_nil, add_zero]
  exact cauchy5 _ _ _ _ _ _ _ _ _ _

/-- C10: for engines whose embeddings come from `_create_embedding` on
products satisfying the data-model invariants, `_compute_similarity` stays
in `[0.5, 1]`: it is exactly 0.5 when either embedding is missing or has
zero norm, and otherwise the feature vectors are componentwise
nonnegative, so the cosine is in `[0, 1]` and the rescaled value
`(cosine + 1)/2` never falls below 0.5. -/
theorem c10_similarity_range (e : SubstituteEngine) (product_id1 product_id2 : String)
    (hemb : ∀ kv ∈ e.embeddings, ∃ pr : Product,
      kv.2 = create_embedding pr ∧ 0 ≤ pr.emissions ∧ 0 ≤ pr.price
        ∧ 0 ≤ pr.health ∧ pr.health ≤ 1) :
    ((e.embeddings.lookup product_id1 = none ∨ e.embeddings.lookup product_id2 = none) →
      compute_similarity e product_id1 product_id2 = 1 / 2)
    ∧ (∀ emb1 emb2, e.embeddings.lookup product_id1 = some emb1 →
        e.embeddings.lookup product_id2 = some emb2 →
        (sumSq emb1 = 0 ∨ sumSq emb2 = 0) →
        compute_similarity e product_id1 product_id2 = 1 / 2)
    ∧ 1 / 2 ≤ compute_similarity e product_id1 product_id2
    ∧ compute_similarity e product_id1 product_id2 ≤ 1 := by
  refine ⟨?_, ?_, ?_⟩
  · intro hmiss
    rcases hmiss with hm | hm
    · cases h2 : e.embeddings.lookup product_id2 with
      | none => simp only [compute_similarity, hm, h2]; norm_num
      | some emb2 => simp only [compute_similarity, hm, h2]; norm_num
    · cases h1 : e.embeddings.lookup product_id1 with
      | none => simp only [compute_similarity, hm, h1]; norm_num
      | some emb1 => simp only [compute_similarity, hm, h1]; norm_num
  · intro emb1 emb2 h1 h2 hz0
    simp only [compute_similarity, h1, h2]
    rw [if_pos ?side]
    · norm_num
    case side =>
      rcases hz0 with hz | hz
      · left
        rw [hz]
        simp
      · right
        rw [hz]
        simp
  · cases h1 : e.embeddings.lookup product_id1 with
    | none =>
      simp only [compute_similarity, h1]
      norm_num
    | some emb1 =>
      cases h2 : e.embeddings.lookup product_id2 with
      | none =>
        simp only [compute_similarity, h1, h2]
        norm_num
      | some emb2 =>
        simp only [compute_similarity, h1, h2]
        by_cases hz : Real.sqrt ((sumSq emb1 : ℚ) : ℝ) = 0
            ∨ Real.sqrt ((sumSq emb2 : ℚ) : ℝ) = 0
        · rw [if_pos hz]
          norm_num
        · rw [if_neg hz]
          push_neg at hz
          obtain ⟨hz1, hz2⟩ := hz
          obtain ⟨p, hp, hpe, hpp, hph0, hph1⟩ := hemb (product_id1, emb1) (lookup_mem h1)
          obtain ⟨q, hq, hqe, hqp, hqh0, hqh1⟩ := hemb (product_id2, emb2) (lookup_mem h2)
          simp only at hp hq
          subst hp
          subst hq
          have hdot : 0 ≤ dotList (create_embedding p) (create_embedding q) :=
            dotList_nonneg _ (create_embedding_nonneg p hpe hpp hph0) _
              (create_embedding_nonneg q hqe hqp hqh0)
          have hS1 : (0:ℚ) ≤ sumSq (create_embedding p) := sumSq_nonneg _
          have hn1 : (0:ℝ) < Real.sqrt ((sumSq (create_embedding p) : ℚ) : ℝ) :=
            lt_of_le_of_ne (Real.sqrt_nonneg _) (Ne.symm hz1)
          have hn2 : (0:ℝ) < Real.sqrt ((sumSq (create_embedding q) : ℚ) : ℝ) :=
            lt_of_le_of_ne (Real.sqrt_nonneg _) (Ne.symm hz2)
          have hprod : (0:ℝ) < Real.sqrt ((sumSq (create_embedding p) : ℚ) : ℝ)
              * Real.sqrt ((sumSq (create_embedding q) : ℚ) : ℝ) := mul_pos hn1 hn2
          have hle : ((dotList (create_embedding p) (create_embedding q) : ℚ) : ℝ)
              ≤ Real.sqrt ((sumSq (create_embedding p) : ℚ) : ℝ)
                * Real.sqrt ((sumSq (create_embedding q) : ℚ) : ℝ) := by
            calc ((dotList (create_embedding p) (create_embedding q) : ℚ) : ℝ)
                = Real.sqrt
                    (((dotList (create_embedding p) (create_embedding q) : ℚ) : ℝ) ^ 2) :=
                  (Real.sqrt_sq (by exact_mod_cast hdot)).symm
              _ ≤ Real.sqrt (((sumSq (create_embedding p) : ℚ) : ℝ)
                    * ((sumSq (create_embedding q) : ℚ) : ℝ)) := by
                  apply Real.sqrt_le_sqrt
                  rw [pow_two]
                  exact_mod_cast create_embedding_cauchy p q
              _ = Real.sqrt ((sumSq (create_embedding p) : ℚ) : ℝ)
                    * Real.sqrt ((sumSq (create_embedding q) : ℚ) : ℝ) :=
                  Real.sqrt_mul (by exact_mod_cast hS1) _
          have hcos0 : (0:ℝ) ≤ ((dotList (create_embedding p) (create_embedding q) : ℚ) : ℝ)
              / (Real.sqrt ((sumSq (create_embedding p) : ℚ) : ℝ)
                * Real.sqrt ((sumSq (create_embedding q) : ℚ) : ℝ)) :=
            div_nonneg (by exact_mod_cast hdot) hprod.le
          have hcos1 : ((dotList (create_embedding p) (create_embedding q) : ℚ) : ℝ)
              / (Real.sqrt ((sumSq (create_embedding p) : ℚ) : ℝ)
                * Real.sqrt ((sumSq (create_embedding q) : ℚ) : ℝ)) ≤ 1 :=
            (div_le_one hprod).mpr hle
          constructor
          · linarith [hcos0]
          · linarith [hcos1]

/-- C10 witness: the similarity range on the fixture engine whose two
embeddings are created from invariant-satisfying products. -/
theorem c10_similarity_witness :
    (∀ kv ∈ engC.embeddings, ∃ pr : Product,
      kv.2 = create_embedding pr ∧ 0 ≤ pr.emissions ∧ 0 ≤ pr.price
        ∧ 0 ≤ pr.health ∧ pr.health ≤ 1)
    ∧ 1 / 2 ≤ compute_similarity engC "w1" "w2"
    ∧ compute_similarity engC "w1" "w2" ≤ 1 := by
  have hemb : ∀ kv ∈ engC.embeddings, ∃ pr : Product,
      kv.2 = create_embedding pr ∧ 0 ≤ pr.emissions ∧ 0 ≤ pr.price
        ∧ 0 ≤ pr.health ∧ pr.health ≤ 1 := by
    intro kv hkv
    simp only [engC, List.mem_cons, List.not_mem_nil, or_false] at hkv
    rcases hkv with rfl | rfl
    · exact ⟨prodW1, rfl, by norm_num [prodW1], by norm_num [prodW1],
        by norm_num [prodW1], by norm_num [prodW1]⟩
    · exact ⟨prodW2, rfl, by norm_num [prodW2], by norm_num [prodW2],
        by norm_num [prodW2], by norm_num [prodW2]⟩
  exact ⟨hemb, (c10_similarity_range engC "w1" "w2" hemb).2.2.1,
    (c10_similarity_range engC "w1" "w2" hemb).2.2.2⟩
